import Mathlib

/-!
# Verification of the cashflow-model validator (`app.py`)

A shallow embedding of the core of the Streamlit cashflow validator:
the recurrence evaluator (survival probability, discount factor,
expected and discounted cashflow, present value), the tolerance-based
reconciliation of computed against sheet-reported columns, the
formula-consistency classifier, and the required-column gate.

Spreadsheet numbers are modelled as rationals (`ℚ`); the dataframe is
modelled as an association list from column name to a column of
rationals, written in the order the script writes columns.
-/

namespace CashflowValidator

/-! ## Recurrence evaluator (app.py lines 161-171) -/

/-- Value of the `Discount factor (calc)` column at row `i`.
The script initialises the whole column to `1.0` and then, for
`i` in `1..n-1`, sets row `i` to row `i-1` divided by
`1 + Discount rate` at row `i`. -/
def discountFactorAt (rates : List ℚ) : Nat → ℚ
  | 0 => 1
  | i + 1 => discountFactorAt rates i / (1 + rates.getD (i + 1) 0)

/-- The `Discount factor (calc)` column: one value per row. -/
def discountFactorCalc (rates : List ℚ) : List ℚ :=
  (List.range rates.length).map (discountFactorAt rates)

/-- Value of the `Survival rate (calc)` column at row `i`.
Seeded at `1.0`; row `i` is row `i-1` times `1 - Death rate` at row `i`. -/
def survivalAt (rates : List ℚ) : Nat → ℚ
  | 0 => 1
  | i + 1 => survivalAt rates i * (1 - rates.getD (i + 1) 0)

/-- The `Survival rate (calc)` column: one value per row. -/
def survivalCalc (rates : List ℚ) : List ℚ :=
  (List.range rates.length).map (survivalAt rates)

/-- `Expected Cashflow (calc) = Cashflow * Survival rate (calc)` (line 169). -/
def expectedCashflowCalc (cashflow survCalc : List ℚ) : List ℚ :=
  List.zipWith (· * ·) cashflow survCalc

/-- `Discounted Cashflow (calc) = Expected Cashflow (calc) * Discount factor`
(line 170).  Note: the multiplier is the sheet-reported `Discount factor`
column, not `Discount factor (calc)`. -/
def discountedCashflowCalc (expCalc dfReported : List ℚ) : List ℚ :=
  List.zipWith (· * ·) expCalc dfReported

/-- The discounted-cashflow rule as the spec states it: a second,
spec-side definition for the refinement comparison.  Modelled from the
spec: `discounted_cashflow[i] = expected_cashflow[i] * discount_factor[i]`
where `discount_factor` is the evaluator's own computed sequence. -/
def discountedCashflowOfSpec (expCalc dfComputed : List ℚ) : List ℚ :=
  List.zipWith (· * ·) expCalc dfComputed

/-! ## Reconciliation (app.py lines 173-195) -/

/-- Tolerance for float comparison (line 180: `tol = 1e-6`). -/
def tol : ℚ := 1 / 1000000

/-- A row-wise absolute-difference column, e.g.
`df['Survival rate diff'] = abs(df['Survival rate'] - df['Survival rate (calc)'])`. -/
def diffCol (reported computed : List ℚ) : List ℚ :=
  List.zipWith (fun a b => |a - b|) reported computed

/-- `any(diff > tol)`: the per-metric mismatch flag. -/
def mismatch (d : List ℚ) : Bool :=
  d.any fun x => decide (tol < x)

/-- The scalar PVFP check (line 194): `abs(calc - sheet) > tol`. -/
def pvfpMismatch (computed sheet : ℚ) : Bool :=
  decide (tol < |computed - sheet|)

/-- The `errors` list built by the validation block (lines 158-195), in
the order the script appends: Survival rate, Discount factor, Expected
Cashflow, Discounted Cashflow, PVFP.  The PVFP sheet value is the first
row of the `PVFP` column. -/
def validationErrors (cashflow death discount survivalRep dfRep
    expectedRep discountedRep pvfpRep : List ℚ) : List String :=
  let survCalc := survivalCalc death
  let dfCalc := discountFactorCalc discount
  let expCalc := expectedCashflowCalc cashflow survCalc
  let discCalc := discountedCashflowCalc expCalc dfRep
  let pvCalc := discCalc.sum
  (if mismatch (diffCol survivalRep survCalc)
    then ["Survival rate calculation mismatch detected."] else []) ++
  (if mismatch (diffCol dfRep dfCalc)
    then ["Discount factor calculation mismatch detected."] else []) ++
  (if mismatch (diffCol expectedRep expCalc)
    then ["Expected Cashflow mismatch detected."] else []) ++
  (if mismatch (diffCol discountedRep discCalc)
    then ["Discounted Cashflow mismatch detected."] else []) ++
  (match pvfpRep.get? 0 with
   | some pv => if pvfpMismatch pvCalc pv then ["PVFP mismatch."] else []
   | none => [])

/-! ## Formula classifier (app.py lines 141-151) -/

/-- A raw spreadsheet cell as seen by openpyxl with `data_only=False`:
a string (possibly a formula), a number, or an empty cell. -/
inductive CellValue where
  | str : String → CellValue
  | num : ℚ → CellValue
  | empty : CellValue
deriving DecidableEq

/-- `isinstance(v, str) and v.startswith('=')`. -/
def isFormulaCell : CellValue → Bool
  | .str s => s.startsWith "="
  | _ => false

/-- `formulas = [v for v in values if isinstance(v, str) and v.startswith('=')]`. -/
def formulaCells (values : List CellValue) : List String :=
  values.filterMap fun v =>
    match v with
    | .str s => if s.startsWith "=" then some s else none
    | _ => none

/-- Outcome of the column analysis, abstracting the message text:
hardcoded values, formula-driven with the representative formula
(`formulas[0]`), or formula-driven with varied formulas. -/
inductive ColumnClass where
  | hardcoded : ColumnClass
  | formulaDriven : String → ColumnClass
  | formulaVaried : ColumnClass
deriving DecidableEq

/-- The per-column classification (lines 144-151): no formulas means
hardcoded; otherwise a single distinct formula is reported with
`formulas[0]` as representative, and several distinct formulas are
reported as varied. -/
def columnAnalysis (values : List CellValue) : ColumnClass :=
  match formulaCells values with
  | [] => .hardcoded
  | f :: rest =>
      if (f :: rest).dedup.length = 1 then .formulaDriven f else .formulaVaried

/-! ## Dataframe model and the required-column gate (app.py lines 100-109) -/

/-- A dataframe: columns of rationals keyed by name, in order. -/
def Df : Type := List (String × List ℚ)

/-- Reading a column; absent columns read as the empty column. -/
def getCol (df : Df) (name : String) : List ℚ :=
  (List.lookup name df).getD []

/-- Writing a column, as pandas assignment does: replace the column if
the name exists, else append a new column. -/
def setCol : Df → String → List ℚ → Df
  | [], name, v => [(name, v)]
  | (k, w) :: rest, name, v =>
      if k = name then (k, v) :: rest else (k, w) :: setCol rest name v

/-- `len(df)`: the row count, read off the `Time` column. -/
def nRowsOf (df : Df) : Nat := (getCol df "Time").length

/-- The nine required columns (line 100). -/
def requiredColumns : List String :=
  ["Time", "Cashflow", "Death rate", "Discount rate", "Survival rate",
   "Discount factor", "Expected Cashflow", "Discounted cashflow", "PVFP"]

/-- `missing_columns = required_columns - set(df.columns)` (line 106). -/
def missingColumns (df : Df) : List String :=
  requiredColumns.filter fun c => (List.lookup c df).isNone

/-- The sequence of column writes performed inside the validation block
(lines 161-178), each reading from the frame as it stands when the write
happens, in program order. -/
def calcWrites : List (String × (Df → List ℚ)) :=
  [("Discount factor (calc)", fun d => discountFactorCalc (getCol d "Discount rate")),
   ("Survival rate (calc)", fun d => survivalCalc (getCol d "Death rate")),
   ("Expected Cashflow (calc)", fun d =>
      expectedCashflowCalc (getCol d "Cashflow") (getCol d "Survival rate (calc)")),
   ("Discounted Cashflow (calc)", fun d =>
      discountedCashflowCalc (getCol d "Expected Cashflow (calc)") (getCol d "Discount factor")),
   ("PVFP (calc)", fun d =>
      List.replicate (nRowsOf d) (getCol d "Discounted Cashflow (calc)").sum),
   ("Discount factor diff", fun d =>
      diffCol (getCol d "Discount factor") (getCol d "Discount factor (calc)")),
   ("Survival rate diff", fun d =>
      diffCol (getCol d "Survival rate") (getCol d "Survival rate (calc)")),
   ("Expected CF diff", fun d =>
      diffCol (getCol d "Expected Cashflow") (getCol d "Expected Cashflow (calc)")),
   ("Discounted CF diff", fun d =>
      diffCol (getCol d "Discounted cashflow") (getCol d "Discounted Cashflow (calc)"))]

/-- The validation block as a frame transformer: perform the column
writes in program order. -/
def validationRun (df : Df) : Df :=
  calcWrites.foldl (fun d p => setCol d p.1 (p.2 d)) df

/-- What a successful run produces: the formula classification of each
column and the extended frame. -/
structure RunOutput where
  analysis : List (String × ColumnClass)
  frame : Df

/-- The script after upload: check the required columns (lines 106-109,
`st.stop()` on failure), then classify formulas and validate. -/
def appRun (df : Df) (cellCols : List (String × List CellValue)) :
    Except (List String) RunOutput :=
  let missing := missingColumns df
  if missing.isEmpty then
    .ok ⟨cellCols.map (fun p => (p.1, columnAnalysis p.2)), validationRun df⟩
  else
    .error missing

/-! ## Helper lemmas -/

theorem survivalCalc_getD (rates : List ℚ) (i : Nat) (h : i < rates.length) :
    (survivalCalc rates).getD i 0 = survivalAt rates i := by
  simp [survivalCalc, List.getD_eq_getElem?_getD, List.getElem?_map,
    List.getElem?_range, h]

theorem discountFactorCalc_getD (rates : List ℚ) (i : Nat) (h : i < rates.length) :
    (discountFactorCalc rates).getD i 0 = discountFactorAt rates i := by
  simp [discountFactorCalc, List.getD_eq_getElem?_getD, List.getElem?_map,
    List.getElem?_range, h]

theorem survivalCalc_length (rates : List ℚ) :
    (survivalCalc rates).length = rates.length := by
  simp [survivalCalc]

theorem discountFactorCalc_length (rates : List ℚ) :
    (discountFactorCalc rates).length = rates.length := by
  simp [discountFactorCalc]

/-! ## Claims C3 and C4: the two seeded recurrences -/

/-- Claim C3: for every input table with at least one row, the computed
survival-probability column has value `1` at row `0`, and each later row
within the table equals the previous row times `1 - decrement rate` at
that row. -/
theorem C3_survival_recurrence (death : List ℚ) (h : 1 ≤ death.length) :
    (survivalCalc death).getD 0 0 = 1 ∧
    ∀ i, 1 ≤ i → i < death.length →
      (survivalCalc death).getD i 0 =
        (survivalCalc death).getD (i - 1) 0 * (1 - death.getD i 0) := by
  constructor
  · rw [survivalCalc_getD death 0 h]
    rfl
  · intro i h1 h2
    obtain ⟨j, rfl⟩ : ∃ j, i = j + 1 := ⟨i - 1, (Nat.succ_pred_eq_of_pos h1).symm⟩
    rw [survivalCalc_getD death (j + 1) h2,
      survivalCalc_getD death ((j + 1) - 1) (Nat.lt_of_succ_lt h2)]
    rfl

theorem C3_witness :
    1 ≤ ([0, 1/10] : List ℚ).length ∧
    ((survivalCalc [0, 1/10]).getD 0 0 = 1 ∧
      ∀ i, 1 ≤ i → i < ([0, 1/10] : List ℚ).length →
        (survivalCalc [0, 1/10]).getD i 0 =
          (survivalCalc [0, 1/10]).getD (i - 1) 0 *
            (1 - ([0, 1/10] : List ℚ).getD i 0)) :=
  ⟨by decide, C3_survival_recurrence [0, 1/10] (by decide)⟩

/-- Claim C4: for every input table with at least one row, the computed
discount-factor column has value `1` at row `0`, and each later row
within the table equals the previous row divided by `1 + discount rate`
at that row. -/
theorem C4_discount_factor_recurrence (discount : List ℚ) (h : 1 ≤ discount.length) :
    (discountFactorCalc discount).getD 0 0 = 1 ∧
    ∀ i, 1 ≤ i → i < discount.length →
      (discountFactorCalc discount).getD i 0 =
        (discountFactorCalc discount).getD (i - 1) 0 / (1 + discount.getD i 0) := by
  constructor
  · rw [discountFactorCalc_getD discount 0 h]
    rfl
  · intro i h1 h2
    obtain ⟨j, rfl⟩ : ∃ j, i = j + 1 := ⟨i - 1, (Nat.succ_pred_eq_of_pos h1).symm⟩
    rw [discountFactorCalc_getD discount (j + 1) h2,
      discountFactorCalc_getD discount ((j + 1) - 1) (Nat.lt_of_succ_lt h2)]
    rfl

theorem C4_witness :
    1 ≤ ([0, 1/20] : List ℚ).length ∧
    ((discountFactorCalc [0, 1/20]).getD 0 0 = 1 ∧
      ∀ i, 1 ≤ i → i < ([0, 1/20] : List ℚ).length →
        (discountFactorCalc [0, 1/20]).getD i 0 =
          (discountFactorCalc [0, 1/20]).getD (i - 1) 0 /
            (1 + ([0, 1/20] : List ℚ).getD i 0)) :=
  ⟨by decide, C4_discount_factor_recurrence [0, 1/20] (by decide)⟩

/-! ## Claim C5: the tolerance comparison -/

/-- Claim C5: a metric is declared mismatched exactly when some row-wise
(or scalar) absolute difference strictly exceeds the tolerance, the
tolerance is `1e-6`, and a difference exactly equal to the tolerance
does not trigger a mismatch. -/
theorem C5_mismatch_iff_exceeds_tol (reported computed : List ℚ) (pvCalc pvSheet : ℚ) :
    tol = 1 / 1000000 ∧
    (mismatch (diffCol reported computed) = true ↔
      ∃ x ∈ diffCol reported computed, tol < x) ∧
    (pvfpMismatch pvCalc pvSheet = true ↔ tol < |pvCalc - pvSheet|) ∧
    mismatch (List.replicate reported.length tol) = false := by
  refine ⟨rfl, ?_, ?_, ?_⟩
  · simp [mismatch, List.any_eq_true]
  · simp [pvfpMismatch]
  · simp [mismatch, List.any_eq_true, List.mem_replicate]

/-! ## Claim C6: exact round-trip gives a clean report -/

theorem diffCol_self (l : List ℚ) : diffCol l l = List.map (fun _ => (0 : ℚ)) l := by
  simp [diffCol, List.zipWith_same]

theorem mismatch_diffCol_self (l : List ℚ) : mismatch (diffCol l l) = false := by
  simp only [diffCol_self, mismatch, List.any_map, List.any_eq_false, Function.comp]
  intro x _
  simp [tol]

/-- Claim C6: when every reported column is exactly the corresponding
computed column and the reported PVFP is exactly the computed aggregate,
no error is emitted, every mismatch flag is false and every entry of
every difference column is `0`. -/
theorem C6_exact_roundtrip (cashflow death discount : List ℚ) :
    validationErrors cashflow death discount
      (survivalCalc death) (discountFactorCalc discount)
      (expectedCashflowCalc cashflow (survivalCalc death))
      (discountedCashflowCalc
        (expectedCashflowCalc cashflow (survivalCalc death))
        (discountFactorCalc discount))
      [(discountedCashflowCalc
          (expectedCashflowCalc cashflow (survivalCalc death))
          (discountFactorCalc discount)).sum] = [] ∧
    mismatch (diffCol (survivalCalc death) (survivalCalc death)) = false ∧
    mismatch (diffCol (discountFactorCalc discount) (discountFactorCalc discount)) = false ∧
    mismatch (diffCol (expectedCashflowCalc cashflow (survivalCalc death))
      (expectedCashflowCalc cashflow (survivalCalc death))) = false ∧
    mismatch (diffCol
      (discountedCashflowCalc (expectedCashflowCalc cashflow (survivalCalc death))
        (discountFactorCalc discount))
      (discountedCashflowCalc (expectedCashflowCalc cashflow (survivalCalc death))
        (discountFactorCalc discount))) = false ∧
    pvfpMismatch
      (discountedCashflowCalc (expectedCashflowCalc cashflow (survivalCalc death))
        (discountFactorCalc discount)).sum
      (discountedCashflowCalc (expectedCashflowCalc cashflow (survivalCalc death))
        (discountFactorCalc discount)).sum = false ∧
    (∀ x ∈ diffCol (survivalCalc death) (survivalCalc death), x = 0) ∧
    (∀ x ∈ diffCol (discountFactorCalc discount) (discountFactorCalc discount), x = 0) ∧
    (∀ x ∈ diffCol (expectedCashflowCalc cashflow (survivalCalc death))
      (expectedCashflowCalc cashflow (survivalCalc death)), x = 0) ∧
    (∀ x ∈ diffCol
      (discountedCashflowCalc (expectedCashflowCalc cashflow (survivalCalc death))
        (discountFactorCalc discount))
      (discountedCashflowCalc (expectedCashflowCalc cashflow (survivalCalc death))
        (discountFactorCalc discount)), x = 0) := by
  have hpv : pvfpMismatch
      (discountedCashflowCalc (expectedCashflowCalc cashflow (survivalCalc death))
        (discountFactorCalc discount)).sum
      (discountedCashflowCalc (expectedCashflowCalc cashflow (survivalCalc death))
        (discountFactorCalc discount)).sum = false := by
    simp [pvfpMismatch]
    norm_num [tol]
  refine ⟨?_, mismatch_diffCol_self _, mismatch_diffCol_self _, mismatch_diffCol_self _,
    mismatch_diffCol_self _, hpv, ?_, ?_, ?_, ?_⟩
  · simp [validationErrors, mismatch_diffCol_self, hpv]
  all_goals
    intro x hx
    rw [diffCol_self] at hx
    obtain ⟨a, -, ha⟩ := List.mem_map.mp hx
    exact ha.symm

/-! ## Claim C1: the discounted-cashflow multiplier -/

/-- Claim C1 (refutation at a concrete input): the validation block
computes `Discounted Cashflow (calc)` from the sheet-reported
`Discount factor` column, and this differs from the spec-side rule that
multiplies by the evaluator's own computed discount factor whenever the
two columns disagree.  Input: cashflow `[0, 100]`, death rate `[0, 0]`,
discount rate `[0, 1/20]`, reported discount factor `[1, 1]`. -/
theorem C1_code_uses_reported_factor :
    discountedCashflowCalc
      (expectedCashflowCalc [0, 100] (survivalCalc [0, 0])) [1, 1] = [0, 100] ∧
    discountedCashflowOfSpec
      (expectedCashflowCalc [0, 100] (survivalCalc [0, 0]))
      (discountFactorCalc [0, 1/20]) = [0, 2000/21] ∧
    discountedCashflowCalc
        (expectedCashflowCalc [0, 100] (survivalCalc [0, 0])) [1, 1] ≠
      discountedCashflowOfSpec
        (expectedCashflowCalc [0, 100] (survivalCalc [0, 0]))
        (discountFactorCalc [0, 1/20]) := by
  have hs : survivalCalc [0, 0] = [1, 1] := by
    simp [survivalCalc, survivalAt, show List.range 2 = [0, 1] from rfl]
  have he : expectedCashflowCalc [0, 100] (survivalCalc [0, 0]) = [0, 100] := by
    rw [hs]
    simp [expectedCashflowCalc]
  have hd : discountFactorCalc [0, 1/20] = [1, 20/21] := by
    simp [discountFactorCalc, discountFactorAt, show List.range 2 = [0, 1] from rfl]
    norm_num
  refine ⟨?_, ?_, ?_⟩
  · rw [he]
    simp [discountedCashflowCalc]
  · rw [he, hd]
    simp [discountedCashflowOfSpec]
    norm_num
  · rw [he, hd]
    simp [discountedCashflowCalc, discountedCashflowOfSpec]
    norm_num

/-! ## Claim C7: the end-to-end perturbation scenario -/

def scenarioCashflow : List ℚ := [0, 100, 100]

def scenarioDeath : List ℚ := [0, 1/10, 2/10]

def scenarioDiscount : List ℚ := [0, 1/20, 1/20]

/-- Claim C7 (refutation at a concrete input): in the 3-period scenario
with all reported columns set to the exact computed values, perturbing
the single reported discount-factor value at row `1` by `1e-3` makes the
validation block emit three mismatches (discount factor, discounted
cashflow and PVFP), not exactly one, because the discounted-cashflow and
PVFP recalculations read the reported discount-factor column. -/
theorem C7_single_perturbation_three_mismatches :
    discountFactorCalc scenarioDiscount = [1, 20/21, 400/441] ∧
    ([1, 20/21 + 1/1000, 400/441] : List ℚ) =
      (discountFactorCalc scenarioDiscount).set 1 (20/21 + 1/1000) ∧
    discountedCashflowCalc
        (expectedCashflowCalc scenarioCashflow (survivalCalc scenarioDeath))
        (discountFactorCalc scenarioDiscount) = [0, 600/7, 3200/49] ∧
    ([7400/49] : List ℚ) =
      [(discountedCashflowCalc
          (expectedCashflowCalc scenarioCashflow (survivalCalc scenarioDeath))
          (discountFactorCalc scenarioDiscount)).sum] ∧
    validationErrors scenarioCashflow scenarioDeath scenarioDiscount
      (survivalCalc scenarioDeath)
      [1, 20/21 + 1/1000, 400/441]
      (expectedCashflowCalc scenarioCashflow (survivalCalc scenarioDeath))
      [0, 600/7, 3200/49]
      [7400/49] =
      ["Discount factor calculation mismatch detected.",
       "Discounted Cashflow mismatch detected.",
       "PVFP mismatch."] := by
  have hs : survivalCalc scenarioDeath = [1, 9/10, 18/25] := by
    simp [scenarioDeath, survivalCalc, survivalAt, show List.range 3 = [0, 1, 2] from rfl]
    norm_num
  have hd : discountFactorCalc scenarioDiscount = [1, 20/21, 400/441] := by
    simp [scenarioDiscount, discountFactorCalc, discountFactorAt,
      show List.range 3 = [0, 1, 2] from rfl]
    norm_num
  have he : expectedCashflowCalc scenarioCashflow (survivalCalc scenarioDeath) =
      [0, 90, 72] := by
    rw [hs]
    simp [scenarioCashflow, expectedCashflowCalc]
    norm_num
  have hdc : discountedCashflowCalc
      (expectedCashflowCalc scenarioCashflow (survivalCalc scenarioDeath))
      (discountFactorCalc scenarioDiscount) = [0, 600/7, 3200/49] := by
    rw [he, hd]
    simp [discountedCashflowCalc]
    norm_num
  have he2 : expectedCashflowCalc scenarioCashflow ([1, 9/10, 18/25] : List ℚ) =
      [0, 90, 72] := by
    simp [scenarioCashflow, expectedCashflowCalc]
    norm_num
  have hdc2 : discountedCashflowCalc ([0, 90, 72] : List ℚ)
      [1, 20/21 + 1/1000, 400/441] = [0, 600/7 + 9/100, 3200/49] := by
    simp [discountedCashflowCalc]
    norm_num
  have hsum : ([0, 600/7 + 9/100, 3200/49] : List ℚ).sum = 7400/49 + 9/100 := by
    simp
    norm_num
  have hm2 : mismatch (diffCol [1, 20/21 + 1/1000, 400/441] [1, 20/21, 400/441]) = true := by
    simp [mismatch, diffCol, tol]
    norm_num [abs_of_nonneg, abs_of_nonpos]
  have hm4 : mismatch (diffCol [0, 600/7, 3200/49] [0, 600/7 + 9/100, 3200/49]) = true := by
    simp [mismatch, diffCol, tol]
    norm_num [abs_of_nonneg, abs_of_nonpos]
  have hm5 : pvfpMismatch (7400/49 + 9/100) (7400/49) = true := by
    simp [pvfpMismatch, tol]
    norm_num [abs_of_nonneg, abs_of_nonpos]
  refine ⟨hd, ?_, hdc, ?_, ?_⟩
  · rw [hd]
    rfl
  · rw [hdc]
    norm_num
  · simp only [validationErrors, List.get?]
    rw [hs, he2, hdc2, hsum, hd, hm2, hm4, hm5]
    simp only [mismatch_diffCol_self]
    simp

/-! ## Claim C8: the formula classifier -/

theorem formulaCells_eq_nil_iff (values : List CellValue) :
    formulaCells values = [] ↔ ∀ v ∈ values, isFormulaCell v = false := by
  rw [formulaCells, List.filterMap_eq_nil_iff]
  apply forall_congr'
  intro v
  apply imp_congr_right
  intro _
  cases v with
  | str s => cases h : s.startsWith "=" <;> simp [isFormulaCell, h]
  | num q => simp [isFormulaCell]
  | empty => simp [isFormulaCell]

theorem formulaCells_ne_nil_iff (values : List CellValue) :
    formulaCells values ≠ [] ↔ ∃ v ∈ values, isFormulaCell v = true := by
  rw [Ne, formulaCells_eq_nil_iff]
  push_neg
  constructor
  · rintro ⟨v, hv, hne⟩
    exact ⟨v, hv, by simpa using hne⟩
  · rintro ⟨v, hv, htrue⟩
    exact ⟨v, hv, by simp [htrue]⟩

theorem dedup_cons_ne_nil {α : Type} [DecidableEq α] (f : α) (rest : List α) :
    (f :: rest).dedup ≠ [] := by
  intro h
  have hf : f ∈ (f :: rest).dedup := List.mem_dedup.mpr (List.mem_cons_self f rest)
  rw [h] at hf
  exact List.not_mem_nil f hf

theorem dedup_length_one_iff {α : Type} [DecidableEq α] (f : α) (rest : List α) :
    (f :: rest).dedup.length = 1 ↔ (f :: rest).dedup = [f] := by
  constructor
  · intro h
    obtain ⟨a, ha⟩ := List.length_eq_one.mp h
    have hf : f ∈ (f :: rest).dedup := List.mem_dedup.mpr (List.mem_cons_self f rest)
    rw [ha] at hf ⊢
    simp at hf
    rw [hf]
  · intro h
    rw [h]
    rfl

/-- Claim C8: the classifier is total and classifies a column as
hardcoded exactly when no cell is a formula (in particular an empty
column is hardcoded), as formula-driven with representative `e` exactly
when some cell is a formula and `e` is the unique distinct formula
expression, and as varied exactly when at least two distinct formula
expressions occur. -/
theorem C8_classifier (values : List CellValue) :
    (columnAnalysis values = ColumnClass.hardcoded ↔
      ∀ v ∈ values, isFormulaCell v = false) ∧
    (∀ e, columnAnalysis values = ColumnClass.formulaDriven e ↔
      (∃ v ∈ values, isFormulaCell v = true) ∧
        (formulaCells values).dedup = [e] ∧ e ∈ formulaCells values) ∧
    (columnAnalysis values = ColumnClass.formulaVaried ↔
      2 ≤ (formulaCells values).dedup.length) ∧
    columnAnalysis [] = ColumnClass.hardcoded := by
  cases hfc : formulaCells values with
  | nil =>
    have hana : columnAnalysis values = ColumnClass.hardcoded := by
      simp [columnAnalysis, hfc]
    have hnof : ∀ v ∈ values, isFormulaCell v = false :=
      (formulaCells_eq_nil_iff values).mp hfc
    refine ⟨⟨fun _ => hnof, fun _ => hana⟩, ?_, ?_, rfl⟩
    · intro e
      constructor
      · intro h
        rw [hana] at h
        exact ColumnClass.noConfusion h
      · rintro ⟨⟨v, hv, hform⟩, -, -⟩
        rw [hnof v hv] at hform
        cases hform
    · constructor
      · intro h
        rw [hana] at h
        exact ColumnClass.noConfusion h
      · intro h
        simp at h
  | cons f rest =>
    have hex : ∃ v ∈ values, isFormulaCell v = true := by
      rw [← formulaCells_ne_nil_iff, hfc]
      simp
    by_cases hone : (f :: rest).dedup.length = 1
    · have hana : columnAnalysis values = ColumnClass.formulaDriven f := by
        simp [columnAnalysis, hfc, hone]
      have hded : (f :: rest).dedup = [f] := (dedup_length_one_iff f rest).mp hone
      refine ⟨?_, ?_, ?_, rfl⟩
      · constructor
        · intro h
          rw [hana] at h
          exact ColumnClass.noConfusion h
        · intro h
          obtain ⟨v, hv, hform⟩ := hex
          rw [h v hv] at hform
          cases hform
      · intro e
        constructor
        · intro h
          rw [hana] at h
          have hfe : f = e := by injection h
          subst hfe
          exact ⟨hex, hded, List.mem_cons_self f rest⟩
        · rintro ⟨-, hde, -⟩
          rw [hded] at hde
          have hfe : f = e := by injection hde
          rw [hana, hfe]
      · constructor
        · intro h
          rw [hana] at h
          exact ColumnClass.noConfusion h
        · intro h
          omega
    · have hana : columnAnalysis values = ColumnClass.formulaVaried := by
        simp [columnAnalysis, hfc, hone]
      have hge1 : 1 ≤ (f :: rest).dedup.length :=
        List.length_pos.mpr (dedup_cons_ne_nil f rest)
      refine ⟨?_, ?_, ?_, rfl⟩
      · constructor
        · intro h
          rw [hana] at h
          exact ColumnClass.noConfusion h
        · intro h
          obtain ⟨v, hv, hform⟩ := hex
          rw [h v hv] at hform
          cases hform
      · intro e
        constructor
        · intro h
          rw [hana] at h
          exact ColumnClass.noConfusion h
        · rintro ⟨-, hde, -⟩
          refine absurd ?_ hone
          rw [hde]
          rfl
      · constructor
        · intro _
          omega
        · intro _
          exact hana

/-! ## Claim C9: the run never mutates the caller-supplied columns -/

theorem lookup_setCol_ne (df : Df) (target name : String) (v : List ℚ)
    (h : name ≠ target) :
    List.lookup name (setCol df target v) = List.lookup name df := by
  induction df with
  | nil =>
    have hb : (name == target) = false := beq_eq_false_iff_ne.mpr h
    simp [setCol, List.lookup, hb]
  | cons p rest ih =>
    obtain ⟨k, col⟩ := p
    by_cases hk : k = target
    · subst hk
      have hb : (name == k) = false := beq_eq_false_iff_ne.mpr h
      rw [setCol, if_pos rfl]
      simp [List.lookup, hb]
    · rw [setCol, if_neg hk]
      by_cases hnk : name = k
      · subst hnk
        simp [List.lookup]
      · have hb : (name == k) = false := beq_eq_false_iff_ne.mpr hnk
        simp [List.lookup, hb, ih]

theorem getCol_setCol_ne (df : Df) (target name : String) (v : List ℚ)
    (h : name ≠ target) : getCol (setCol df target v) name = getCol df name := by
  simp [getCol, lookup_setCol_ne df target name v h]

theorem getCol_foldl_writes (ws : List (String × (Df → List ℚ))) (df : Df)
    (name : String) (h : name ∉ ws.map Prod.fst) :
    getCol (ws.foldl (fun d p => setCol d p.1 (p.2 d)) df) name = getCol df name := by
  induction ws generalizing df with
  | nil => rfl
  | cons p rest ih =>
    simp only [List.map_cons, List.mem_cons, not_or] at h
    rw [List.foldl_cons, ih _ h.2, getCol_setCol_ne _ _ _ _ h.1]

/-- Claim C9: after the validation block runs, each of the nine
caller-supplied input and reported columns holds exactly the values it
held before; the block only writes separately named computed and
difference columns. -/
theorem C9_inputs_unchanged (df : Df) :
    getCol (validationRun df) "Time" = getCol df "Time" ∧
    getCol (validationRun df) "Cashflow" = getCol df "Cashflow" ∧
    getCol (validationRun df) "Death rate" = getCol df "Death rate" ∧
    getCol (validationRun df) "Discount rate" = getCol df "Discount rate" ∧
    getCol (validationRun df) "Survival rate" = getCol df "Survival rate" ∧
    getCol (validationRun df) "Discount factor" = getCol df "Discount factor" ∧
    getCol (validationRun df) "Expected Cashflow" = getCol df "Expected Cashflow" ∧
    getCol (validationRun df) "Discounted cashflow" = getCol df "Discounted cashflow" ∧
    getCol (validationRun df) "PVFP" = getCol df "PVFP" := by
  have hp : ∀ name, name ∉ calcWrites.map Prod.fst →
      getCol (validationRun df) name = getCol df name := fun name h =>
    getCol_foldl_writes calcWrites df name h
  refine ⟨hp _ ?_, hp _ ?_, hp _ ?_, hp _ ?_, hp _ ?_, hp _ ?_, hp _ ?_,
    hp _ ?_, hp _ ?_⟩ <;> decide

/-! ## Claims C2 and C10: the required-column gate -/

theorem appRun_missing_aborts (df : Df) (cells : List (String × List CellValue))
    (name : String) (hmem : name ∈ requiredColumns)
    (hmiss : List.lookup name df = none) :
    appRun df cells = Except.error (missingColumns df) ∧
    name ∈ missingColumns df := by
  have hn : name ∈ missingColumns df := by
    rw [missingColumns, List.mem_filter]
    exact ⟨hmem, by simp [hmiss]⟩
  have hne : (missingColumns df).isEmpty = false := by
    cases hmc : missingColumns df with
    | nil => rw [hmc] at hn; cases hn
    | cons a l => rfl
  constructor
  · simp [appRun, hne]
  · exact hn

/-- An input table with every required column except the reported
`PVFP` total. -/
def noPvfpDf : Df :=
  [("Time", [1, 2]), ("Cashflow", [0, 100]), ("Death rate", [0, 0]),
   ("Discount rate", [0, 0]), ("Survival rate", [1, 1]),
   ("Discount factor", [1, 1]), ("Expected Cashflow", [0, 100]),
   ("Discounted cashflow", [0, 100])]

/-- Claim C2 (refutation at a concrete input): with only the reported
`PVFP` column absent, the run does not skip that metric and continue
comparing the others; it aborts with a fatal missing-column error
naming `PVFP`, before any comparison. -/
theorem C2_counterexample_missing_pvfp_aborts :
    appRun noPvfpDf [] = Except.error ["PVFP"] := rfl

/-- The five reported counterpart columns. -/
def reportedColumns : List String :=
  ["Survival rate", "Discount factor", "Expected Cashflow",
   "Discounted cashflow", "PVFP"]

/-- Claim C2 as amended: when a reported counterpart column is absent,
the run aborts with a fatal error naming the missing column instead of
skipping that metric and continuing. -/
theorem C2_amended_missing_reported_aborts (df : Df)
    (cells : List (String × List CellValue)) (name : String)
    (hmem : name ∈ reportedColumns) (hmiss : List.lookup name df = none) :
    appRun df cells = Except.error (missingColumns df) ∧
    name ∈ missingColumns df := by
  have hreq : name ∈ requiredColumns := by
    fin_cases hmem <;> decide
  exact appRun_missing_aborts df cells name hreq hmiss

/-- An input table with every required column except the reported
`Survival rate`. -/
def noSurvivalDf : Df :=
  [("Time", [1]), ("Cashflow", [5]), ("Death rate", [0]), ("Discount rate", [0]),
   ("Discount factor", [1]), ("Expected Cashflow", [5]),
   ("Discounted cashflow", [5]), ("PVFP", [5])]

theorem C2_amended_witness :
    "Survival rate" ∈ reportedColumns ∧
    List.lookup "Survival rate" noSurvivalDf = none ∧
    (appRun noSurvivalDf [] = Except.error (missingColumns noSurvivalDf) ∧
      "Survival rate" ∈ missingColumns noSurvivalDf) :=
  ⟨by decide, rfl,
    C2_amended_missing_reported_aborts noSurvivalDf [] "Survival rate" (by decide) rfl⟩

/-- Claim C10: if any of the nine required columns is missing from the
input — including the case where only reported columns are missing —
the run aborts with an error listing exactly the missing required
columns, and produces neither recomputed values, nor comparisons, nor a
formula classification. -/
theorem C10_missing_column_aborts (df : Df) (cells : List (String × List CellValue))
    (name : String) (hmem : name ∈ requiredColumns)
    (hmiss : List.lookup name df = none) :
    appRun df cells = Except.error (missingColumns df) ∧
    name ∈ missingColumns df ∧
    (∀ m ∈ requiredColumns, List.lookup m df = none → m ∈ missingColumns df) ∧
    (∀ m ∈ missingColumns df, m ∈ requiredColumns ∧ List.lookup m df = none) := by
  obtain ⟨habort, hn⟩ := appRun_missing_aborts df cells name hmem hmiss
  refine ⟨habort, hn, ?_, ?_⟩
  · intro m hm hnone
    rw [missingColumns, List.mem_filter]
    exact ⟨hm, by simp [hnone]⟩
  · intro m hm
    rw [missingColumns, List.mem_filter] at hm
    exact ⟨hm.1, by simpa using hm.2⟩

theorem C10_witness :
    "Time" ∈ requiredColumns ∧
    List.lookup "Time" ([] : Df) = none ∧
    (appRun [] [] = Except.error (missingColumns []) ∧
      "Time" ∈ missingColumns [] ∧
      (∀ m ∈ requiredColumns, List.lookup m ([] : Df) = none → m ∈ missingColumns []) ∧
      (∀ m ∈ missingColumns [], m ∈ requiredColumns ∧ List.lookup m ([] : Df) = none)) :=
  ⟨by decide, rfl, C10_missing_column_aborts [] [] "Time" (by decide) rfl⟩

end CashflowValidator
